import Mathlib

/-!
Shallow embedding of the MMDS request-parsing core of the repository:
`src/vmm/src/vmm_config/mmds.rs` (the configuration model `MmdsConfig`
with its `ipv4_addr_pool` validation) and
`src/api_server/src/request/mmds.rs` (the request parser/router
`parse_get_mmds` / `parse_put_mmds` / `parse_patch_mmds`).

Raw request bodies are abstracted at the boundary of the external
`serde_json` collaborator: a `Body` carries the result of the syntactic
JSON parse of its raw bytes (`none` when the bytes are not valid JSON,
`some j` when they parse to the JSON document `j`).  Everything from that
point on — the strict-schema deserialization of `MmdsConfig`
(`deny_unknown_fields`), IPv4 dotted-decimal parsing, validation and
routing — is embedded from the source.
-/

set_option autoImplicit false

/-- JSON documents, as produced by the syntactic layer of `serde_json`.
Objects keep their fields in textual order, as the streaming deserializer
observes them. -/
inductive Json where
  | null
  | bool (b : Bool)
  | num (n : Int)
  | str (s : String)
  | arr (elems : List Json)
  | obj (fields : List (String × Json))

/-- A request body (`micro_http::Body`), abstracted as the outcome of the
syntactic JSON parse of its raw bytes: `none` when the raw bytes are not
valid JSON, `some j` otherwise. -/
structure Body where
  json : Option Json

/-- Deserialization failures of the external `serde_json` collaborator
(`serde_json::Error`), separated by cause. -/
inductive SerdeError where
  /-- The raw bytes are not syntactically valid JSON. -/
  | invalidJson
  /-- A struct field not in the schema (`deny_unknown_fields`). -/
  | unknownField (name : String)
  /-- A required struct field is absent. -/
  | missingField (name : String)
  /-- A struct field occurs twice. -/
  | duplicateField (name : String)
  /-- A value has the wrong JSON type (expected is described). -/
  | invalidType (expected : String)
  deriving DecidableEq

/-- `std::net::AddrParseError`: opaque in Rust, it carries no public data. -/
structure AddrParseError where
  deriving DecidableEq

/-- `std::net::Ipv4Addr`: four octets. -/
structure Ipv4Addr where
  a : Nat
  b : Nat
  c : Nat
  d : Nat
  deriving DecidableEq

/-- One dotted-decimal group: one to three ASCII digits, no leading zero
(unless the group is exactly "0"), value at most 255. -/
def parseOctet (cs : List Char) : Option Nat :=
  if cs = [] then none
  else if cs.length > 3 then none
  else if ¬ cs.all Char.isDigit then none
  else if cs.head? = some '0' ∧ cs.length > 1 then none
  else
    let n := cs.foldl (fun acc c => acc * 10 + (c.toNat - 48)) 0
    if n ≤ 255 then some n else none

/-- Split a character sequence at every `'.'` (the separators are
dropped; adjacent or outer dots yield empty groups). -/
def splitOnDot : List Char → List (List Char)
  | [] => [[]]
  | c :: rest =>
    if c = '.' then [] :: splitOnDot rest
    else
      match splitOnDot rest with
      | g :: gs => (c :: g) :: gs
      | [] => [[c]]

/-- `Ipv4Addr::from_str`: exactly four dot-separated dotted-decimal
groups and nothing else. -/
def Ipv4Addr.from_str (s : String) : Except AddrParseError Ipv4Addr :=
  match (splitOnDot s.data).map parseOctet with
  | [some a, some b, some c, some d] => .ok ⟨a, b, c, d⟩
  | _ => .error ⟨⟩

/-- `vmm::vmm_config::mmds::MmdsConfig`: the MMDS configuration as
deserialized from a request body. -/
structure MmdsConfig where
  ipv4_address_pool : List String
  deriving DecidableEq

/-- `vmm::vmm_config::mmds::Error`: errors of the configuration model. -/
inductive ConfigError where
  | SetMmdsConfigurationNotAllowedPostBoot
  | IPv4ParseError (e : AddrParseError)
  deriving DecidableEq

/-- The loop body of `MmdsConfig::ipv4_addr_pool`: parse each string in
order, pushing the parsed address, returning the first parse failure. -/
def parseIpv4List : List String → Except ConfigError (List Ipv4Addr)
  | [] => .ok []
  | s :: rest =>
    match Ipv4Addr.from_str s with
    | .error e => .error (ConfigError.IPv4ParseError e)
    | .ok addr =>
      match parseIpv4List rest with
      | .error e => .error e
      | .ok addrs => .ok (addr :: addrs)

/-- `MmdsConfig::ipv4_addr_pool`. -/
def MmdsConfig.ipv4_addr_pool (self : MmdsConfig) : Except ConfigError (List Ipv4Addr) :=
  parseIpv4List self.ipv4_address_pool

/-- Element-wise deserialization of `Vec<String>` from a JSON array's
elements: every element must be a JSON string; first failure wins. -/
def deserializeStrings : List Json → Except SerdeError (List String)
  | [] => .ok []
  | Json.str s :: rest =>
    match deserializeStrings rest with
    | .ok ss => .ok (s :: ss)
    | .error e => .error e
  | _ :: _ => .error (SerdeError.invalidType "a string")

/-- Deserialization of `Vec<String>` from a JSON value: it must be an
array of strings. -/
def deserializeStringList : Json → Except SerdeError (List String)
  | Json.arr elems => deserializeStrings elems
  | _ => .error (SerdeError.invalidType "a sequence")

/-- The field loop of the derived `Deserialize` for `MmdsConfig` with
`deny_unknown_fields`: fields are visited in textual order; a key other
than `ipv4_address_pool` is rejected at once, a repeated key is a
duplicate-field error, and after all fields the single required field
must have been seen. -/
def deserializeFields : List (String × Json) → Option (List String) → Except SerdeError MmdsConfig
  | [], none => .error (SerdeError.missingField "ipv4_address_pool")
  | [], some pool => .ok ⟨pool⟩
  | (k, v) :: rest, acc =>
    if k = "ipv4_address_pool" then
      match acc with
      | some _ => .error (SerdeError.duplicateField "ipv4_address_pool")
      | none =>
        match deserializeStringList v with
        | .error e => .error e
        | .ok pool => deserializeFields rest (some pool)
    else .error (SerdeError.unknownField k)

/-- Deserialization of `MmdsConfig` from a JSON document: it must be an
object satisfying the strict schema. -/
def deserializeMmdsConfig : Json → Except SerdeError MmdsConfig
  | Json.obj fields => deserializeFields fields none
  | _ => .error (SerdeError.invalidType "struct MmdsConfig")

/-- `serde_json::from_slice::<MmdsConfig>` on the body's raw bytes. -/
def serdeFromSliceMmdsConfig (body : Body) : Except SerdeError MmdsConfig :=
  match body.json with
  | none => .error SerdeError.invalidJson
  | some j => deserializeMmdsConfig j

/-- `serde_json::from_slice::<serde_json::Value>` on the body's raw
bytes: succeeds with the document whenever the bytes are valid JSON. -/
def serdeFromSliceJson (body : Body) : Except SerdeError Json :=
  match body.json with
  | none => .error SerdeError.invalidJson
  | some j => .ok j

/-- `micro_http::StatusCode` (only the variant the core uses). -/
inductive StatusCode where
  | BadRequest
  deriving DecidableEq

/-- `api_server::request::Error` (the request-level error type). -/
inductive RequestError where
  | Generic (code : StatusCode) (msg : String)
  | SerdeJson (e : SerdeError)
  | MmdsConfig (e : ConfigError)
  deriving DecidableEq

/-- `vmm::VmmAction` (only the variant the core emits). -/
inductive VmmAction where
  | SetMmdsConfiguration (config : MmdsConfig)

/-- `api_server::request::ParsedRequest` (the outcome vocabulary of the
MMDS parsing core). -/
inductive ParsedRequest where
  | GetMMDS
  | Sync (action : VmmAction)
  | PutMMDS (value : Json)
  | PatchMMDS (value : Json)

/-- The routing error built at `mmds.rs:19-22`:
`Error::Generic(StatusCode::BadRequest, format!("Unrecognized PUT request path `{}`.", *config_path))`. -/
def routingError (tok : String) : RequestError :=
  RequestError.Generic StatusCode.BadRequest
    ("Unrecognized PUT request path `" ++ tok ++ "`.")

/-- The empty-pool error built at `mmds.rs:43-46`:
`Error::Generic(StatusCode::BadRequest, "The IPv4 addresses pool is empty.".to_string())`. -/
def emptyPoolError : RequestError :=
  RequestError.Generic StatusCode.BadRequest "The IPv4 addresses pool is empty."

/-- `parse_get_mmds`. -/
def parse_get_mmds : Except RequestError ParsedRequest :=
  .ok ParsedRequest.GetMMDS

/-- `parse_put_mmds`: route on the first path token, then either
deserialize and validate an `MmdsConfig` (token `"config"`), reject an
unrecognized token, or treat the body as opaque MMDS data (no token). -/
def parse_put_mmds (body : Body) (first_token : Option String) : Except RequestError ParsedRequest :=
  match first_token with
  | some config_path =>
    if config_path = "config" then
      match serdeFromSliceMmdsConfig body with
      | .error e => .error (RequestError.SerdeJson e)
      | .ok mmds_config =>
        match mmds_config.ipv4_addr_pool with
        | .error e => .error (RequestError.MmdsConfig e)
        | .ok mmds_ipv4_addr_pool =>
          if mmds_ipv4_addr_pool.isEmpty then
            .error emptyPoolError
          else
            .ok (ParsedRequest.Sync (VmmAction.SetMmdsConfiguration mmds_config))
    else
      .error (routingError config_path)
  | none =>
    match serdeFromSliceJson body with
    | .error e => .error (RequestError.SerdeJson e)
    | .ok value => .ok (ParsedRequest.PutMMDS value)

/-- `parse_patch_mmds`: no path-token branching at all. -/
def parse_patch_mmds (body : Body) : Except RequestError ParsedRequest :=
  match serdeFromSliceJson body with
  | .error e => .error (RequestError.SerdeJson e)
  | .ok value => .ok (ParsedRequest.PatchMMDS value)

/-! ### Helper lemmas -/

theorem exists_ok_of_isOk {ε α : Type} {x : Except ε α} (h : x.isOk = true) :
    ∃ a, x = Except.ok a := by
  cases x with
  | error e => simp [Except.isOk, Except.toBool] at h
  | ok a => exact ⟨a, rfl⟩

theorem parseIpv4List_ok_of_all (l : List String)
    (h : ∀ s ∈ l, (Ipv4Addr.from_str s).isOk = true) :
    ∃ addrs : List Ipv4Addr, parseIpv4List l = Except.ok addrs ∧
      addrs.length = l.length ∧
      ∀ (i : Nat) (hi : i < l.length) (hi' : i < addrs.length),
        Ipv4Addr.from_str (l.get ⟨i, hi⟩) = Except.ok (addrs.get ⟨i, hi'⟩) := by
  induction l with
  | nil => exact ⟨[], rfl, rfl, fun i hi _ => absurd hi (Nat.not_lt_zero i)⟩
  | cons s rest ih =>
    have hs := h s (List.mem_cons_self s rest)
    obtain ⟨a, ha⟩ := exists_ok_of_isOk hs
    obtain ⟨addrs, hok, hlen, hget⟩ := ih (fun x hx => h x (List.mem_cons_of_mem s hx))
    refine ⟨a :: addrs, ?_, by simp [hlen], ?_⟩
    · simp [parseIpv4List, ha, hok]
    · intro i hi hi'
      cases i with
      | zero => simpa using ha
      | succ j =>
        exact hget j (Nat.lt_of_succ_lt_succ hi) (Nat.lt_of_succ_lt_succ hi')

theorem parseIpv4List_error_first (l : List String) (i : Nat) (hi : i < l.length)
    (e : AddrParseError)
    (hpre : ∀ (j : Nat) (hj : j < i),
      (Ipv4Addr.from_str (l.get ⟨j, Nat.lt_trans hj hi⟩)).isOk = true)
    (hbad : Ipv4Addr.from_str (l.get ⟨i, hi⟩) = Except.error e) :
    parseIpv4List l = Except.error (ConfigError.IPv4ParseError e) := by
  induction l generalizing i with
  | nil => exact absurd hi (Nat.not_lt_zero i)
  | cons s rest ih =>
    cases i with
    | zero =>
      have hs : Ipv4Addr.from_str s = Except.error e := hbad
      simp [parseIpv4List, hs]
    | succ j =>
      have hs : (Ipv4Addr.from_str s).isOk = true := hpre 0 (Nat.succ_pos j)
      obtain ⟨a, ha⟩ := exists_ok_of_isOk hs
      have hrest := ih j (Nat.lt_of_succ_lt_succ hi)
        (fun k hk => hpre (k + 1) (Nat.succ_lt_succ hk)) hbad
      simp [parseIpv4List, ha, hrest]

theorem deserializeFields_error_of_unknown (fields : List (String × Json))
    (hbad : ∃ kv ∈ fields, kv.1 ≠ "ipv4_address_pool") :
    ∀ acc, ∃ e, deserializeFields fields acc = Except.error e := by
  induction fields with
  | nil =>
    obtain ⟨kv, hkv, -⟩ := hbad
    exact absurd hkv (List.not_mem_nil kv)
  | cons p rest ih =>
    intro acc
    obtain ⟨k, v⟩ := p
    by_cases hk : k = "ipv4_address_pool"
    · subst hk
      cases acc with
      | some pool =>
        exact ⟨SerdeError.duplicateField "ipv4_address_pool", by simp [deserializeFields]⟩
      | none =>
        cases hdsl : deserializeStringList v with
        | error e => exact ⟨e, by simp [deserializeFields, hdsl]⟩
        | ok pool =>
          have hrest : ∃ kv ∈ rest, kv.1 ≠ "ipv4_address_pool" := by
            obtain ⟨kv, hkv, hne⟩ := hbad
            cases hkv with
            | head => exact absurd rfl hne
            | tail _ htail => exact ⟨kv, htail, hne⟩
          obtain ⟨e, he⟩ := ih hrest (some pool)
          exact ⟨e, by simp [deserializeFields, hdsl, he]⟩
    · exact ⟨SerdeError.unknownField k, by simp [deserializeFields, hk]⟩

theorem routingMsg_ne_emptyMsg (tok : String) :
    "Unrecognized PUT request path `" ++ tok ++ "`." ≠
      "The IPv4 addresses pool is empty." := by
  intro h
  have hd := congrArg String.data h
  rw [String.data_append, String.data_append] at hd
  have h0 : (some 'U' : Option Char) = some 'T' := congrArg List.head? hd
  exact absurd (Option.some.inj h0) (by decide)

/-! ### Claim theorems -/

/-- C1: for every PUT request routed to configuration mode (first path
token `"config"`) whose body deserializes to an `MmdsConfig` with an
empty `ipv4_address_pool`, `parse_put_mmds` fails with the
empty-address-pool error, and never with the IPv4-parse-error kind or
the malformed-body kind. -/
theorem claim1_empty_pool_put_fails_with_emptyPoolError (body : Body) (config : MmdsConfig)
    (h : serdeFromSliceMmdsConfig body = Except.ok config)
    (hp : config.ipv4_address_pool = []) :
    parse_put_mmds body (some "config") = Except.error emptyPoolError ∧
    (∀ e, parse_put_mmds body (some "config") ≠ Except.error (RequestError.SerdeJson e)) ∧
    (∀ e, parse_put_mmds body (some "config") ≠ Except.error (RequestError.MmdsConfig e)) := by
  have hpool : config.ipv4_addr_pool = Except.ok [] := by
    simp [MmdsConfig.ipv4_addr_pool, hp, parseIpv4List]
  have hmain : parse_put_mmds body (some "config") = Except.error emptyPoolError := by
    simp [parse_put_mmds, h, hpool]
  refine ⟨hmain, fun e he => ?_, fun e he => ?_⟩
  · rw [hmain] at he
    simp [emptyPoolError] at he
  · rw [hmain] at he
    simp [emptyPoolError] at he

theorem claim1_witness :
    serdeFromSliceMmdsConfig ⟨some (Json.obj [("ipv4_address_pool", Json.arr [])])⟩ =
      Except.ok ⟨[]⟩ ∧
    parse_put_mmds ⟨some (Json.obj [("ipv4_address_pool", Json.arr [])])⟩ (some "config") =
      Except.error emptyPoolError :=
  ⟨rfl, (claim1_empty_pool_put_fails_with_emptyPoolError
    ⟨some (Json.obj [("ipv4_address_pool", Json.arr [])])⟩ ⟨[]⟩ rfl rfl).1⟩

/-- C2: for every PUT request whose first path token is present and not
exactly `"config"`, `parse_put_mmds` fails with the routing error naming
the offending token, independent of the body content. -/
theorem claim2_unrecognized_token_routing_error (body : Body) (tok : String)
    (h : tok ≠ "config") :
    parse_put_mmds body (some tok) = Except.error (routingError tok) := by
  simp [parse_put_mmds, h]

theorem claim2_witness :
    parse_put_mmds ⟨some (Json.obj [("invalid_config", Json.str "invalid_value")])⟩
      (some "invalid_path") = Except.error (routingError "invalid_path") :=
  claim2_unrecognized_token_routing_error
    ⟨some (Json.obj [("invalid_config", Json.str "invalid_value")])⟩ "invalid_path" (by decide)

/-- C3: the four error kinds the parsing core produces (routing error,
malformed body, invalid IPv4 configuration value, empty address pool)
are pairwise distinguishable by the structure of the returned error
value, for every token and every underlying detail. -/
theorem claim3_error_kinds_pairwise_distinct (tok : String) (se : SerdeError)
    (ae : AddrParseError) :
    routingError tok ≠ emptyPoolError ∧
    routingError tok ≠ RequestError.SerdeJson se ∧
    routingError tok ≠ RequestError.MmdsConfig (ConfigError.IPv4ParseError ae) ∧
    emptyPoolError ≠ RequestError.SerdeJson se ∧
    emptyPoolError ≠ RequestError.MmdsConfig (ConfigError.IPv4ParseError ae) ∧
    RequestError.SerdeJson se ≠ RequestError.MmdsConfig (ConfigError.IPv4ParseError ae) := by
  refine ⟨fun h => ?_, by simp [routingError], by simp [routingError],
    by simp [emptyPoolError], by simp [emptyPoolError], by simp⟩
  have hmsg : "Unrecognized PUT request path `" ++ tok ++ "`." =
      "The IPv4 addresses pool is empty." := by
    have := h
    simp only [routingError, emptyPoolError, RequestError.Generic.injEq] at this
    exact this.2
  exact routingMsg_ne_emptyMsg tok hmsg

/-- C4: for every `MmdsConfig` whose pool has an unparseable entry at
index `i` and only parseable entries before it, `ipv4_addr_pool` fails
with `IPv4ParseError` carrying the parse failure of that first
unparseable entry, regardless of the entries after index `i`. -/
theorem claim4_ipv4_addr_pool_first_error (config : MmdsConfig) (i : Nat)
    (hi : i < config.ipv4_address_pool.length) (e : AddrParseError)
    (hpre : ∀ (j : Nat) (hj : j < i),
      (Ipv4Addr.from_str (config.ipv4_address_pool.get ⟨j, Nat.lt_trans hj hi⟩)).isOk = true)
    (hbad : Ipv4Addr.from_str (config.ipv4_address_pool.get ⟨i, hi⟩) = Except.error e) :
    config.ipv4_addr_pool = Except.error (ConfigError.IPv4ParseError e) :=
  parseIpv4List_error_first config.ipv4_address_pool i hi e hpre hbad

theorem claim4_witness :
    (MmdsConfig.mk ["1.1.1.1.1", "2.2.2.2"]).ipv4_addr_pool =
      Except.error (ConfigError.IPv4ParseError ⟨⟩) :=
  claim4_ipv4_addr_pool_first_error ⟨["1.1.1.1.1", "2.2.2.2"]⟩ 0 (by decide) ⟨⟩
    (fun j hj => absurd hj (Nat.not_lt_zero j)) rfl

/-- C5: for every `MmdsConfig` whose pool entries are all parseable IPv4
addresses, `ipv4_addr_pool` succeeds and returns the parsed addresses in
the original order with the same length as the input pool (so duplicates
are neither deduplicated nor rejected). -/
theorem claim5_ipv4_addr_pool_preserves_order_and_duplicates (config : MmdsConfig)
    (hval : ∀ s ∈ config.ipv4_address_pool, (Ipv4Addr.from_str s).isOk = true) :
    ∃ addrs : List Ipv4Addr, config.ipv4_addr_pool = Except.ok addrs ∧
      addrs.length = config.ipv4_address_pool.length ∧
      ∀ (i : Nat) (hi : i < config.ipv4_address_pool.length) (hi' : i < addrs.length),
        Ipv4Addr.from_str (config.ipv4_address_pool.get ⟨i, hi⟩) =
          Except.ok (addrs.get ⟨i, hi'⟩) :=
  parseIpv4List_ok_of_all config.ipv4_address_pool hval

theorem claim5_witness :
    ∃ addrs : List Ipv4Addr,
      (MmdsConfig.mk ["1.1.1.1", "1.1.1.1"]).ipv4_addr_pool = Except.ok addrs ∧
      addrs.length = (MmdsConfig.mk ["1.1.1.1", "1.1.1.1"]).ipv4_address_pool.length ∧
      ∀ (i : Nat) (hi : i < (MmdsConfig.mk ["1.1.1.1", "1.1.1.1"]).ipv4_address_pool.length)
        (hi' : i < addrs.length),
        Ipv4Addr.from_str ((MmdsConfig.mk ["1.1.1.1", "1.1.1.1"]).ipv4_address_pool.get ⟨i, hi⟩) =
          Except.ok (addrs.get ⟨i, hi'⟩) :=
  claim5_ipv4_addr_pool_preserves_order_and_duplicates ⟨["1.1.1.1", "1.1.1.1"]⟩ (by decide)

/-- C6: for every PUT request with token `"config"` whose body
deserializes to an `MmdsConfig` with a non-empty, all-valid-IPv4 pool,
`parse_put_mmds` succeeds with `Sync (SetMmdsConfiguration config)`
wrapping the originally-deserialized `MmdsConfig` (the string pool,
order preserved), not the parsed-address list. -/
theorem claim6_valid_config_put_yields_SetMmdsConfiguration (body : Body) (config : MmdsConfig)
    (h : serdeFromSliceMmdsConfig body = Except.ok config)
    (hne : config.ipv4_address_pool ≠ [])
    (hval : ∀ s ∈ config.ipv4_address_pool, (Ipv4Addr.from_str s).isOk = true) :
    parse_put_mmds body (some "config") =
      Except.ok (ParsedRequest.Sync (VmmAction.SetMmdsConfiguration config)) := by
  obtain ⟨addrs, hok, hlen, -⟩ := parseIpv4List_ok_of_all config.ipv4_address_pool hval
  have hpool : config.ipv4_addr_pool = Except.ok addrs := hok
  have hnotempty : addrs.isEmpty = false := by
    cases addrs with
    | nil => exact absurd (List.length_eq_zero.mp hlen.symm) hne
    | cons a rest => rfl
  simp [parse_put_mmds, h, hpool, hnotempty]

theorem claim6_witness :
    parse_put_mmds ⟨some (Json.obj [("ipv4_address_pool", Json.arr [Json.str "1.1.1.1"])])⟩
      (some "config") =
      Except.ok (ParsedRequest.Sync (VmmAction.SetMmdsConfiguration ⟨["1.1.1.1"]⟩)) :=
  claim6_valid_config_put_yields_SetMmdsConfiguration
    ⟨some (Json.obj [("ipv4_address_pool", Json.arr [Json.str "1.1.1.1"])])⟩
    ⟨["1.1.1.1"]⟩ rfl (by decide) (by decide)

/-- C7: for every PUT request routed to configuration mode whose body is
a JSON object containing any field other than `ipv4_address_pool`,
deserialization is rejected and `parse_put_mmds` fails with the
malformed-body error kind. -/
theorem claim7_unknown_field_rejected_as_malformed_body (fields : List (String × Json))
    (k : String) (v : Json) (hmem : (k, v) ∈ fields) (hk : k ≠ "ipv4_address_pool") :
    ∃ e, parse_put_mmds ⟨some (Json.obj fields)⟩ (some "config") =
      Except.error (RequestError.SerdeJson e) := by
  obtain ⟨e, he⟩ := deserializeFields_error_of_unknown fields ⟨(k, v), hmem, hk⟩ none
  exact ⟨e, by simp [parse_put_mmds, serdeFromSliceMmdsConfig, deserializeMmdsConfig, he]⟩

theorem claim7_witness :
    ∃ e, parse_put_mmds ⟨some (Json.obj [("invalid_config", Json.str "invalid_value")])⟩
      (some "config") = Except.error (RequestError.SerdeJson e) :=
  claim7_unknown_field_rejected_as_malformed_body
    [("invalid_config", Json.str "invalid_value")] "invalid_config"
    (Json.str "invalid_value") (List.Mem.head _) (by decide)

/-- C8: for every PUT request with no path token, `parse_put_mmds`
treats the body as an opaque JSON value: it succeeds with `PutMMDS`
holding that value whenever the body is syntactically valid JSON, and
fails with the malformed-body error otherwise. -/
theorem claim8_put_data_mode_opaque_json (body : Body) :
    (∀ v, body.json = some v →
      parse_put_mmds body none = Except.ok (ParsedRequest.PutMMDS v)) ∧
    (body.json = none →
      parse_put_mmds body none = Except.error (RequestError.SerdeJson SerdeError.invalidJson)) := by
  constructor
  · intro v hv
    simp [parse_put_mmds, serdeFromSliceJson, hv]
  · intro hv
    simp [parse_put_mmds, serdeFromSliceJson, hv]

theorem claim8_witness :
    parse_put_mmds ⟨some (Json.obj [("foo", Json.str "bar")])⟩ none =
      Except.ok (ParsedRequest.PutMMDS (Json.obj [("foo", Json.str "bar")])) :=
  (claim8_put_data_mode_opaque_json ⟨some (Json.obj [("foo", Json.str "bar")])⟩).1 _ rfl

/-- C9: `parse_patch_mmds` performs no path-token branching (it takes no
token at all): for every body it succeeds with `PatchMMDS` holding the
deserialized value exactly when the body is syntactically valid JSON,
and fails with the malformed-body error otherwise. -/
theorem claim9_patch_opaque_json (body : Body) :
    (∀ v, body.json = some v →
      parse_patch_mmds body = Except.ok (ParsedRequest.PatchMMDS v)) ∧
    (body.json = none →
      parse_patch_mmds body = Except.error (RequestError.SerdeJson SerdeError.invalidJson)) := by
  constructor
  · intro v hv
    simp [parse_patch_mmds, serdeFromSliceJson, hv]
  · intro hv
    simp [parse_patch_mmds, serdeFromSliceJson, hv]

theorem claim9_witness :
    parse_patch_mmds ⟨none⟩ = Except.error (RequestError.SerdeJson SerdeError.invalidJson) :=
  (claim9_patch_opaque_json ⟨none⟩).2 rfl

/-- C10: for the `MmdsConfig` whose `ipv4_address_pool` is the empty
sequence, `ipv4_addr_pool` succeeds and returns the empty address list
(it does not error): emptiness is not checked at the configuration-model
level, only by the request router on a configuration PUT. -/
theorem claim10_empty_pool_ok_at_config_model :
    (MmdsConfig.mk []).ipv4_addr_pool = Except.ok ([] : List Ipv4Addr) ∧
    parse_put_mmds ⟨some (Json.obj [("ipv4_address_pool", Json.arr [Json.str "10.0.0.2"])])⟩
      (some "config") ≠ Except.error emptyPoolError :=
  ⟨rfl, fun h => Except.noConfusion h⟩
